import Mathlib

/-!
Verification development for the question extraction-and-solving pipeline of
`backend/app/api/v1/question_solver.py` (personalized-learning-assistant).

The Python source is shallowly embedded below.  Python strings are Lean
`String`s, Python `re` patterns are represented by an explicit backtracking
matcher (`RE` / `reM`) whose alternation order, greedy/lazy quantifier order
and leftmost-match scanning mirror CPython's `re` module for the specific
patterns occurring in the source.  Dynamic values produced by `json.loads`
are embedded as the inductive `JVal`.  The AI capability
(`gemini_model.generate_content`) is a parameter of type
`Option (String → Except String String)`: `none` models an uninitialized
`gemini_model`, `Except.error m` models the call raising an exception whose
`str(e)` is `m`, and `Except.ok t` models a response whose `.text` is `t`
(a falsy/absent response text is modelled as the empty string).
-/

namespace PyStr

/-- Characters matched by Python's `\s` (ASCII range, which is all the
source's inputs use). -/
def isSpaceP (c : Char) : Bool :=
  c = ' ' || c = '\t' || c = '\n' || c = '\r' || c = '\x0c' || c = '\x0b'

/-- Characters matched by Python's `\d` (ASCII digits). -/
def isDigitP (c : Char) : Bool := '0' ≤ c && c ≤ '9'

/-- Python `str.strip()`: remove leading and trailing whitespace. -/
def strip (s : String) : String :=
  ⟨(s.toList.dropWhile isSpaceP).reverse.dropWhile isSpaceP |>.reverse⟩

/-- Splitting scanner behind `splitOnStr` (fuel-indexed so it reduces in the
kernel): emit the accumulated piece at each occurrence of `sep`. -/
def splitOnAuxL (sep : List Char) (acc : List Char) :
    Nat → List Char → List (List Char)
  | 0, rest => [acc.reverse ++ rest]
  | f + 1, rest =>
    if sep.isPrefixOf rest then
      acc.reverse :: splitOnAuxL sep [] f (rest.drop sep.length)
    else
      match rest with
      | [] => [acc.reverse]
      | c :: rs => splitOnAuxL sep (c :: acc) f rs

/-- Python `s.split(sep)` for a nonempty literal separator (also the
behavior of `String.splitOn`). -/
def splitOnStr (sep s : String) : List String :=
  (splitOnAuxL sep.toList [] (s.length + 1) s.toList).map
    fun l => (⟨l⟩ : String)

/-- Replacement scanner behind `replaceStr` (fuel-indexed so it reduces in
the kernel). -/
def replaceAuxL (pat repl : List Char) : Nat → List Char → List Char
  | 0, rest => rest
  | f + 1, rest =>
    if pat.isPrefixOf rest then
      repl ++ replaceAuxL pat repl f (rest.drop pat.length)
    else
      match rest with
      | [] => []
      | c :: rs => c :: replaceAuxL pat repl f rs

/-- Python `s.replace(pat, repl)` for a nonempty pattern: replace every
non-overlapping occurrence, left to right. -/
def replaceStr (s pat repl : String) : String :=
  ⟨replaceAuxL pat.toList repl.toList (s.length + 1) s.toList⟩

/-- Python `needle in s` for a nonempty literal `needle`. -/
def containsSub (needle s : String) : Bool := 2 ≤ (splitOnStr needle s).length

/-- Python `s.split()` with no argument: split on whitespace runs, dropping
empty pieces. -/
def splitWS (s : String) : List String :=
  ((s.toList.splitOnP fun c => isSpaceP c).map fun l => (⟨l⟩ : String)).filter
    fun p => p ≠ ""

/-- Python `' '.join(s.split())`: collapse every whitespace run to one space. -/
def collapseWS (s : String) : String := String.intercalate " " (splitWS s)

/-- Digits-to-integer, the effect of Python `int` on a `\d+` match. -/
def digitsToNat (l : List Char) : Nat :=
  l.foldl (fun n c => n * 10 + (c.toNat - 48)) 0

end PyStr

/-!  ## A small backtracking regex engine

`RE` covers exactly the constructs used by the source's patterns: character
classes, concatenation, alternation (preferring the left branch), greedy and
lazy repetition, greedy option, numbered capture groups, lookahead, and
zero-width assertions (which receive the previous character and the remaining
input, enough to express `^`, `$`, `\Z` under the relevant flags). -/

inductive RE where
  | eps
  | cls (p : Char → Bool)
  | cat (a b : RE)
  | alt (a b : RE)
  | star (r : RE)
  | starL (r : RE)
  | opt (r : RE)
  | grp (i : Nat) (r : RE)
  | look (r : RE)
  | assrt (p : Option Char → List Char → Bool)

namespace RE

/-- Literal character. -/
def chr (c : Char) : RE := cls (fun x => x = c)

/-- Literal character, case-insensitively (the engine's rendering of
`re.IGNORECASE` on the letters of a literal). -/
def chrCI (c : Char) : RE := cls (fun x => x.toLower = c.toLower)

/-- Literal string. -/
def lit (s : String) : RE := (s.toList.map chr).foldr cat eps

/-- Literal string, case-insensitively. -/
def litCI (s : String) : RE := (s.toList.map chrCI).foldr cat eps

/-- Greedy `+`. -/
def plus (r : RE) : RE := cat r (star r)

/-- Lazy `+?`. -/
def plusL (r : RE) : RE := cat r (starL r)

/-- Sequence a list of regexes. -/
def seqAll (l : List RE) : RE := l.foldr cat eps

/-- Capture lists: group index paired with the captured characters; later
entries shadow earlier ones on lookup, as in Python re, the most recent
assignment of a group wins. -/
def Caps := List (Nat × List Char)

/-- Backtracking matcher (CPS).  `prev` is the character just before the
current position (`none` at the very start of the subject), `rest` the
remaining input.  The continuation receives the updated position state; its
first success is the overall result, so alternation order and quantifier
greediness reproduce Python's preference order.  The `fuel` bounds recursion
depth; every repetition step must consume at least one character (true of
every starred subpattern in the source), so any fuel at least
`(pattern size + 2) * (input length + 2)` is enough. -/
def reM : Nat → RE → Option Char → List Char → Caps →
    (Option Char → List Char → Caps → Option (List Char × Caps)) →
    Option (List Char × Caps)
  | 0, _, _, _, _, _ => none
  | _ + 1, eps, prev, rest, caps, k => k prev rest caps
  | _ + 1, cls p, _, rest, caps, k =>
    match rest with
    | [] => none
    | c :: rs => if p c then k (some c) rs caps else none
  | f + 1, cat a b, prev, rest, caps, k =>
    reM f a prev rest caps (fun p2 r2 c2 => reM f b p2 r2 c2 k)
  | f + 1, alt a b, prev, rest, caps, k =>
    match reM f a prev rest caps k with
    | some res => some res
    | none => reM f b prev rest caps k
  | f + 1, star r, prev, rest, caps, k =>
    match reM f r prev rest caps (fun p2 r2 c2 =>
        if r2.length < rest.length then reM f (star r) p2 r2 c2 k else none) with
    | some res => some res
    | none => k prev rest caps
  | f + 1, starL r, prev, rest, caps, k =>
    match k prev rest caps with
    | some res => some res
    | none =>
      reM f r prev rest caps (fun p2 r2 c2 =>
        if r2.length < rest.length then reM f (starL r) p2 r2 c2 k else none)
  | f + 1, opt r, prev, rest, caps, k =>
    match reM f r prev rest caps k with
    | some res => some res
    | none => k prev rest caps
  | f + 1, grp i r, prev, rest, caps, k =>
    reM f r prev rest caps (fun p2 r2 c2 =>
      k p2 r2 ((i, rest.take (rest.length - r2.length)) :: c2))
  | f + 1, look r, prev, rest, caps, k =>
    match reM f r prev rest caps (fun _ r2 c2 => some (r2, c2)) with
    | some _ => k prev rest caps
    | none => none
  | _ + 1, assrt p, prev, rest, caps, k =>
    if p prev rest then k prev rest caps else none

/-- Size of a pattern, used only to compute a sufficient fuel. -/
def sz : RE → Nat
  | eps => 1
  | cls _ => 1
  | cat a b => sz a + sz b + 1
  | alt a b => sz a + sz b + 1
  | star r => sz r + 1
  | starL r => sz r + 1
  | opt r => sz r + 1
  | grp _ r => sz r + 1
  | look r => sz r + 1
  | assrt _ => 1

/-- Fuel that is ample for matching `r` against `rest` (see `reM`). -/
def fuelFor (r : RE) (len : Nat) : Nat := (sz r + 2) * (len + 2) * 4

/-- Try to match `r` at the current position; on success return the number of
characters consumed and the captures. -/
def matchHere (r : RE) (prev : Option Char) (rest : List Char) :
    Option (Nat × Caps) :=
  match reM (fuelFor r rest.length) r prev rest []
      (fun _ r2 c2 => some (r2, c2)) with
  | some (r2, c2) => some (rest.length - r2.length, c2)
  | none => none

/-- Leftmost match: returns (offset from the current position, consumed
length, captures). -/
def searchFrom (r : RE) : Option Char → List Char → Option (Nat × Nat × Caps)
  | prev, rest =>
    match matchHere r prev rest with
    | some (len, caps) => some (0, len, caps)
    | none =>
      match rest with
      | [] => none
      | c :: rs =>
        match searchFrom r (some c) rs with
        | some (p, l, cs) => some (p + 1, l, cs)
        | none => none

/-- Python `re.search` existence test. -/
def searchB (r : RE) (s : String) : Bool := (searchFrom r none s.toList).isSome

/-- Python `re.search`, returning the captures of the leftmost match. -/
def searchCaps (r : RE) (s : String) : Option Caps :=
  match searchFrom r none s.toList with
  | some (_, _, caps) => some caps
  | none => none

/-- Python `re.match` (anchored at the start), returning captures. -/
def matchCaps (r : RE) (s : String) : Option Caps :=
  match matchHere r none s.toList with
  | some (_, caps) => some caps
  | none => none

/-- First capture of group `i` (most recent assignment wins). -/
def capGet (caps : Caps) (i : Nat) : Option (List Char) :=
  match caps.find? (fun p => p.fst = i) with
  | some p => some p.snd
  | none => none

/-- One step of `re.findall`-style scanning: find the next match and return
(matched characters, captures, previous character for the continuation,
remaining input).  Every pattern the source feeds to `findall` consumes at
least one character, so scanning always advances. -/
def findAllAux (r : RE) : Nat → Option Char → List Char →
    List (List Char × Caps)
  | 0, _, _ => []
  | f + 1, prev, rest =>
    match searchFrom r prev rest with
    | none => []
    | some (pos, len, caps) =>
      let matched := (rest.drop pos).take len
      if len = 0 then []
      else
        let rest2 := rest.drop (pos + len)
        let prev2 := ((rest.drop pos).take len).getLast?
        (matched, caps) :: findAllAux r f prev2 rest2

/-- Python `re.findall` with the whole-match strings (zero-group patterns). -/
def findAll0 (r : RE) (s : String) : List String :=
  (findAllAux r (s.length + 1) none s.toList).map fun m => (⟨m.fst⟩ : String)

/-- Python `re.findall` for a one-group pattern: the list of group-1 texts. -/
def findAll1 (r : RE) (s : String) : List String :=
  (findAllAux r (s.length + 1) none s.toList).map fun m =>
    (⟨(capGet m.snd 1).getD []⟩ : String)

/-- Python `re.findall` for a two-group pattern: (group 1, group 2) pairs. -/
def findAll2 (r : RE) (s : String) : List (String × String) :=
  (findAllAux r (s.length + 1) none s.toList).map fun m =>
    ((⟨(capGet m.snd 1).getD []⟩ : String), (⟨(capGet m.snd 2).getD []⟩ : String))

/-- Scanner underlying `re.sub` with a constant replacement: walk the input,
replacing each leftmost match (all the source's substituted patterns consume
at least one character). -/
def subAux (r : RE) (repl : List Char) : Nat → Option Char → List Char →
    List Char
  | 0, _, rest => rest
  | f + 1, prev, rest =>
    match matchHere r prev rest with
    | some (len, _) =>
      if len = 0 then
        match rest with
        | [] => []
        | c :: rs => c :: subAux r repl f (some c) rs
      else repl ++ subAux r repl f (((rest.take len).getLast?)) (rest.drop len)
    | none =>
      match rest with
      | [] => []
      | c :: rs => c :: subAux r repl f (some c) rs

/-- Python `re.sub(pattern, repl, s)` for a constant replacement string. -/
def subst (r : RE) (repl : String) (s : String) : String :=
  ⟨subAux r repl.toList (s.length + 1) none s.toList⟩

end RE

/-!  ## The source's regex patterns

Zero-width assertions, with the source's flags baked in: the segmentation
patterns use `re.MULTILINE | re.DOTALL`, `_clean_text`'s page-number pattern
uses `re.MULTILINE`, `_clean_question_text`'s marks pattern uses neither
(so its `$` matches at the end or just before a final newline), and
`_extract_mcq_options`' option pattern uses `re.MULTILINE` only (so its `.`
does not cross newlines). -/

namespace QPat

/-- `^` under `re.MULTILINE`: start of subject or just after a newline. -/
def bolML (prev : Option Char) (_ : List Char) : Bool :=
  match prev with
  | none => true
  | some c => c = '\n'

/-- `$` under `re.MULTILINE`: end of subject or just before a newline. -/
def eolML (_ : Option Char) (rest : List Char) : Bool :=
  match rest with
  | [] => true
  | c :: _ => c = '\n'

/-- `$` without `re.MULTILINE`: end of subject or just before a final
newline. -/
def eolNoML (_ : Option Char) (rest : List Char) : Bool :=
  rest = [] || rest = ['\n']

/-- `\Z`: absolute end of subject. -/
def endZ (_ : Option Char) (rest : List Char) : Bool := rest = []

/-- Left-to-right alternation of a nonempty list (Python's preference
order). -/
def alts (r : RE) (l : List RE) : RE := l.foldl RE.alt r

/-- `\d{1,2}`, greedy. -/
def d12 : RE := RE.cat (.cls PyStr.isDigitP) (.opt (.cls PyStr.isDigitP))

/-- `\d+`, greedy. -/
def dplus : RE := RE.plus (.cls PyStr.isDigitP)

/-- `\s*`, greedy. -/
def sstar : RE := RE.star (.cls PyStr.isSpaceP)

/-- `\s+`, greedy. -/
def splus : RE := RE.plus (.cls PyStr.isSpaceP)

/-- `.` under `re.DOTALL`. -/
def dotAll : RE := RE.cls fun _ => true

/-- `.` without `re.DOTALL`. -/
def dotNoNL : RE := RE.cls fun c => c ≠ '\n'

/-- `[A-D]`. -/
def clsAD : RE := RE.cls fun c => 'A' ≤ c && c ≤ 'D'

/-- `[)\.]`. -/
def clsCloseDot : RE := RE.cls fun c => c = ')' || c = '.'

/-- `[A-Za-z]`. -/
def clsAlpha : RE := RE.cls Char.isAlpha

/-- `[ivxIVX]`. -/
def clsRomanAny : RE := RE.cls fun c =>
  c = 'i' || c = 'v' || c = 'x' || c = 'I' || c = 'V' || c = 'X'

/-- `[ivx]`. -/
def clsRomanLow : RE := RE.cls fun c => c = 'i' || c = 'v' || c = 'x'

/-- `marks?` under `re.IGNORECASE`. -/
def marksWord : RE := RE.cat (RE.litCI "mark") (.opt (RE.chrCI 's'))

/-- `Page \d+|page \d+|\d+\s*$` (`re.MULTILINE`), the page-artifact pattern
of `_clean_text`. -/
def pageNumPat : RE :=
  alts (RE.cat (RE.lit "Page ") dplus)
    [RE.cat (RE.lit "page ") dplus,
     RE.seqAll [dplus, sstar, RE.assrt eolML]]

/-- `\n{3,}` of `_clean_text`. -/
def nl3Pat : RE :=
  RE.seqAll [RE.chr '\n', RE.chr '\n', RE.chr '\n', RE.star (RE.chr '\n')]

/-- ` {2,}` of `_clean_text`. -/
def sp2Pat : RE := RE.seqAll [RE.chr ' ', RE.chr ' ', RE.star (RE.chr ' ')]

/-- `(?:^|\n)(\d{1,2})\.\s+(.+?)(?=\n\d{1,2}\.|\nSection|\nOR\n|\nDIRECTION|\Z)`
(`re.MULTILINE | re.DOTALL`), the first numbered-question pattern. -/
def numberedPat1 : RE :=
  RE.seqAll
    [RE.alt (.assrt bolML) (.chr '\n'),
     RE.grp 1 d12,
     RE.chr '.',
     splus,
     RE.grp 2 (RE.plusL dotAll),
     RE.look (alts (RE.seqAll [RE.chr '\n', d12, RE.chr '.'])
       [RE.lit "\nSection", RE.lit "\nOR\n", RE.lit "\nDIRECTION",
        RE.assrt endZ])]

/-- `(?:^|\n)(?:Q|Question)\s*(\d{1,2})[\.:]\s*(.+?)(?=\n(?:Q|Question)\s*\d{1,2}|\nSection|\Z)`
(`re.MULTILINE | re.DOTALL`), the second numbered-question pattern. -/
def numberedPat2 : RE :=
  RE.seqAll
    [RE.alt (.assrt bolML) (.chr '\n'),
     RE.alt (RE.lit "Q") (RE.lit "Question"),
     sstar,
     RE.grp 1 d12,
     RE.cls (fun c => c = '.' || c = ':'),
     sstar,
     RE.grp 2 (RE.plusL dotAll),
     RE.look (alts
       (RE.seqAll [RE.chr '\n', RE.alt (RE.lit "Q") (RE.lit "Question"),
         sstar, d12])
       [RE.lit "\nSection", RE.assrt endZ])]

/-- `\(([A-Za-z])\)\s*(.+?)(?=\([A-Za-z]\)|\nOR\n|\n\d+\.|\Z)`
(`re.MULTILINE | re.DOTALL`), the lettered sub-question pattern. -/
def subPatLetter : RE :=
  RE.seqAll
    [RE.chr '(', RE.grp 1 clsAlpha, RE.chr ')',
     sstar,
     RE.grp 2 (RE.plusL dotAll),
     RE.look (alts (RE.seqAll [RE.chr '(', clsAlpha, RE.chr ')'])
       [RE.lit "\nOR\n",
        RE.seqAll [RE.chr '\n', dplus, RE.chr '.'],
        RE.assrt endZ])]

/-- `\(([ivxIVX]+)\)\s*(.+?)(?=\([ivxIVX]+\)|\n\d+\.|\Z)`
(`re.MULTILINE | re.DOTALL`), the roman-numeral sub-question pattern. -/
def subPatRoman : RE :=
  RE.seqAll
    [RE.chr '(', RE.grp 1 (RE.plus clsRomanAny), RE.chr ')',
     sstar,
     RE.grp 2 (RE.plusL dotAll),
     RE.look (alts (RE.seqAll [RE.chr '(', RE.plus clsRomanAny, RE.chr ')'])
       [RE.seqAll [RE.chr '\n', dplus, RE.chr '.'],
        RE.assrt endZ])]

/-- `(?:case study|Case Study|CASE STUDY).+?(?=case study|Case Study|CASE STUDY|\Z)`
(`re.IGNORECASE | re.DOTALL`), the case-study span pattern. -/
def caseSpanPat : RE :=
  RE.seqAll
    [alts (RE.litCI "case study") [RE.litCI "Case Study", RE.litCI "CASE STUDY"],
     RE.plusL dotAll,
     RE.look (alts (RE.litCI "case study")
       [RE.litCI "Case Study", RE.litCI "CASE STUDY", RE.assrt endZ])]

/-- `\(([ivx]+)\)\s*(.+?)(?=\([ivx]+\)|\Z)` (`re.MULTILINE | re.DOTALL`),
the within-case sub-part pattern. -/
def caseSubPat : RE :=
  RE.seqAll
    [RE.chr '(', RE.grp 1 (RE.plus clsRomanLow), RE.chr ')',
     sstar,
     RE.grp 2 (RE.plusL dotAll),
     RE.look (RE.alt (RE.seqAll [RE.chr '(', RE.plus clsRomanLow, RE.chr ')'])
       (RE.assrt endZ))]

/-- `[A-D][)\.]?\s*(.+?)(?=[A-D][)\.]|\n\d+\.|\Z)` (`re.MULTILINE`), the MCQ
option pattern. -/
def optionPat : RE :=
  RE.seqAll
    [clsAD, RE.opt clsCloseDot,
     sstar,
     RE.grp 1 (RE.plusL dotNoNL),
     RE.look (alts (RE.cat clsAD clsCloseDot)
       [RE.seqAll [RE.chr '\n', dplus, RE.chr '.'],
        RE.assrt endZ])]

/-- `\[\d+\s*marks?\]|\(\d+\s*marks?\)|\d+\s*marks?$` (`re.IGNORECASE`), the
marks-annotation pattern substituted away by `_clean_question_text`. -/
def marksSubPat : RE :=
  alts (RE.seqAll [RE.chr '[', dplus, sstar, marksWord, RE.chr ']'])
    [RE.seqAll [RE.chr '(', dplus, sstar, marksWord, RE.chr ')'],
     RE.seqAll [dplus, sstar, marksWord, RE.assrt eolNoML]]

/-- `\[(\d+)\s*marks?\]|\((\d+)\s*marks?\)|(\d+)\s*marks?` (`re.IGNORECASE`),
the capture pattern of `_extract_marks`. -/
def extractMarksPat : RE :=
  alts (RE.seqAll [RE.chr '[', RE.grp 1 dplus, sstar, marksWord, RE.chr ']'])
    [RE.seqAll [RE.chr '(', RE.grp 2 dplus, sstar, marksWord, RE.chr ')'],
     RE.seqAll [RE.grp 3 dplus, sstar, marksWord]]

end QPat

/-!  ## Segmentation engine (`QuestionParser`) -/

/-- A parsed question record, the dict built by the parsing passes:
`{'number','question','type','options','marks'}`. -/
structure PQ where
  number : String
  question : String
  qtype : String
  options : List String
  marks : Option Nat
deriving DecidableEq, Repr, Inhabited

namespace QuestionParser

/-- `_clean_text`: strip page artifacts, collapse newline/space runs, fix the
two OCR degree-symbol substitutions, and trim. -/
def clean_text (text : String) : String :=
  let t1 := RE.subst QPat.pageNumPat "" text
  let t2 := RE.subst QPat.nl3Pat "\n\n" t1
  let t3 := RE.subst QPat.sp2Pat " " t2
  let t4 := PyStr.replaceStr (PyStr.replaceStr t3 "𝑜" "°") "𝑂" "°"
  PyStr.strip t4

/-- `_clean_question_text`: remove marks annotations, keep only the part
before a `"\nOR\n"` alternative, collapse whitespace, trim. -/
def clean_question_text (text : String) : String :=
  let t1 := RE.subst QPat.marksSubPat "" text
  let t2 :=
    if PyStr.containsSub "\nOR\n" t1 then
      (PyStr.splitOnStr "\nOR\n" t1).headD ""
    else t1
  PyStr.strip (PyStr.collapseWS t2)

/-- `_extract_marks`: search the three-alternative marks pattern and return
the first non-`None` group as an integer. -/
def extract_marks (text : String) : Option Nat :=
  match RE.searchCaps QPat.extractMarksPat text with
  | none => none
  | some caps =>
    match RE.capGet caps 1 with
    | some g => some (PyStr.digitsToNat g)
    | none =>
      match RE.capGet caps 2 with
      | some g => some (PyStr.digitsToNat g)
      | none =>
        match RE.capGet caps 3 with
        | some g => some (PyStr.digitsToNat g)
        | none => none

/-- Python `\w`: alphanumerics and underscore (ASCII range). -/
def isWordChar (c : Char) : Bool := c.isAlphanum || c = '_'

/-- Word-boundary search (`re.search(r'\btok\b', s)`): `t` occurs in `s` with
a non-word character (or an end of the subject) on each side. -/
def wordSearchAux (t : List Char) : Option Char → List Char → Bool
  | prev, rest =>
    (t.isPrefixOf rest
      && (match prev with
          | none => true
          | some c => !isWordChar c)
      && (match rest.drop t.length with
          | [] => true
          | c :: _ => !isWordChar c))
    || match rest with
       | [] => false
       | c :: rs => wordSearchAux t (some c) rs

/-- Word-boundary search on a string. -/
def wordSearch (t s : String) : Bool := wordSearchAux t.toList none s.toList

/-- Search for `\bb\b` on the current line only (the `.` of `\ba\b.*\bb\b`
cannot cross a newline since `_is_valid_question` passes no `re.DOTALL`). -/
def wordOnLineAux (b : List Char) : Option Char → List Char → Bool
  | prev, rest =>
    (b.isPrefixOf rest
      && (match prev with
          | none => true
          | some c => !isWordChar c)
      && (match rest.drop b.length with
          | [] => true
          | c :: _ => !isWordChar c))
    || match rest with
       | [] => false
       | c :: rs => if c = '\n' then false else wordOnLineAux b (some c) rs

/-- `re.search(r'\ba\b.*\bb\b', s)`: some word occurrence of `a` is followed,
on the same line, by a word occurrence of `b`. -/
def wordPairSearchAux (a b : List Char) : Option Char → List Char → Bool
  | prev, rest =>
    (a.isPrefixOf rest
      && (match prev with
          | none => true
          | some c => !isWordChar c)
      && (match rest.drop a.length with
          | [] => true
          | c :: _ => !isWordChar c)
      && wordOnLineAux b ((rest.take a.length).getLast?) (rest.drop a.length))
    || match rest with
       | [] => false
       | c :: rs => wordPairSearchAux a b (some c) rs

/-- `re.search(r'\ba\b.*\bb\b', s)` on strings.  The `b`-scan starts right
after `a` with `a`'s final letter as previous character, so `b` cannot begin
without a word boundary immediately after `a`. -/
def wordPairSearch (a b s : String) : Bool :=
  wordPairSearchAux a.toList b.toList none s.toList

/-- Case-insensitive prefix test, `re.match(r'^lit', s, re.IGNORECASE)`. -/
def startsCI (p s : String) : Bool :=
  (p.toList.map Char.toLower).isPrefixOf (s.toList.map Char.toLower)

/-- `re.match(r'^Section [A-E]', s, re.IGNORECASE)`. -/
def sectionSkip (s : String) : Bool :=
  startsCI "Section " s &&
    match s.toList.drop 8 with
    | c :: _ => 'a' ≤ c.toLower && c.toLower ≤ 'e'
    | [] => false

/-- `re.match(r'consists of \d+ questions', s, re.IGNORECASE)`: anchored at
the start, one-or-more digits between the literals. -/
def consistsSkip (s : String) : Bool :=
  startsCI "consists of " s &&
    (let rest := s.toList.drop 12
     let digits := rest.takeWhile PyStr.isDigitP
     !digits.isEmpty && startsCI " questions" ⟨rest.drop digits.length⟩)

/-- The `skip_patterns` of `_is_valid_question`, in source order; each entry
is the anchored, case-insensitive `re.match` test of one pattern. -/
def skip_checks : List (String → Bool) :=
  [sectionSkip,
   sectionSkip,
   fun s => startsCI "General Instructions" s,
   fun s => startsCI "Instructions" s,
   fun s => startsCI "Note:" s,
   fun s => startsCI "Answer" s,
   consistsSkip,
   fun s => startsCI "marks each" s]

/-- The entries of `question_indicators` in `_is_valid_question`: the literal
`'?'` (membership test on the original text), plain word-boundary tokens, and
the two two-word patterns. -/
inductive Indicator where
  | qmark
  | tok (t : String)
  | ifThen
  | givenFind
deriving DecidableEq

/-- `question_indicators`, in source order. -/
def question_indicators : List Indicator :=
  [.qmark,
   .tok "find", .tok "calculate", .tok "prove", .tok "solve",
   .tok "explain", .tok "define", .tok "derive", .tok "show that",
   .tok "what", .tok "which", .tok "how", .tok "why", .tok "when",
   .tok "evaluate", .tok "determine", .tok "state", .tok "write",
   .ifThen, .givenFind]

/-- Test one indicator: `'?'` on the original text, the regex indicators on
the lowercased text, as in the source. -/
def indicator_hit (text textLower : String) : Indicator → Bool
  | .qmark => text.toList.contains '?'
  | .tok t => wordSearch t textLower
  | .ifThen => wordPairSearch "if" "then" textLower
  | .givenFind => wordPairSearch "given" "find" textLower

/-- Characters of the class `[\d\+\-\*\/\=\^]` in the math-problem check. -/
def mathChar (c : Char) : Bool :=
  PyStr.isDigitP c || c = '+' || c = '-' || c = '*' || c = '/' || c = '=' ||
    c = '^'

/-- `_is_valid_question`: length floor, header/instruction skip list, then
the indicator loop, then the math-problem fallback check. -/
def is_valid_question (text : String) : Bool :=
  if text.length < 10 then false
  else if skip_checks.any fun f => f text then false
  else
    let textLower : String := ⟨text.toList.map Char.toLower⟩
    if question_indicators.any (indicator_hit text textLower) then true
    else if text.toList.any mathChar && 15 < text.length then true
    else false

/-- Result of `_extract_mcq_options`: stem and extracted options. -/
structure MCQData where
  question : String
  options : List String
deriving DecidableEq, Repr

/-- Index of the first `[A-D][)\.]` marker, the split point of
`re.split(r'(?=[A-D][)\.])', text, maxsplit=1)` and the test
`re.search(r'[A-D][)\.]', text)`. -/
def mcqMarkerIdx : List Char → Option Nat
  | c :: c2 :: rest =>
    if ('A' ≤ c && c ≤ 'D') && (c2 = ')' || c2 = '.') then some 0
    else
      match mcqMarkerIdx (c2 :: rest) with
      | some n => some (n + 1)
      | none => none
  | _ => none

/-- `_extract_mcq_options`: split at the first option marker, findall the
option texts, keep the non-empty ones, and accept only with at least two
options. -/
def extract_mcq_options (text : String) : Option MCQData :=
  match mcqMarkerIdx text.toList with
  | none => none
  | some p =>
    let question_text := PyStr.strip ⟨text.toList.take p⟩
    let options_text : String := ⟨text.toList.drop p⟩
    let options :=
      ((RE.findAll1 QPat.optionPat options_text).map PyStr.strip).filter
        fun o => o ≠ ""
    if 2 ≤ options.length then some ⟨question_text, options⟩ else none

/-- Build one numbered-pass record from a `(number, text)` findall match:
clean, validate, detect MCQ, extract marks (from the cleaned text, as the
source does). -/
def mkNumbered (m : String × String) : Option PQ :=
  let q_text := clean_question_text (PyStr.strip m.snd)
  if is_valid_question q_text then
    match extract_mcq_options q_text with
    | some mcq =>
      some ⟨m.fst, mcq.question, "MCQ", mcq.options, extract_marks q_text⟩
    | none =>
      some ⟨m.fst, q_text, "descriptive", [], extract_marks q_text⟩
  else none

/-- `_parse_numbered_questions`: both patterns in order, each filtered
through cleaning and validation. -/
def parse_numbered_questions (text : String) : List PQ :=
  (RE.findAll2 QPat.numberedPat1 text).filterMap mkNumbered ++
    (RE.findAll2 QPat.numberedPat2 text).filterMap mkNumbered

/-- Build one sub-question record from a `(label, text)` match. -/
def mkSub (m : String × String) : Option PQ :=
  let q_text := clean_question_text (PyStr.strip m.snd)
  if is_valid_question q_text then
    some ⟨"(" ++ m.fst ++ ")", q_text, "sub-question", [], extract_marks q_text⟩
  else none

/-- `_parse_sub_questions`: lettered then roman-numeral markers. -/
def parse_sub_questions (text : String) : List PQ :=
  (RE.findAll2 QPat.subPatLetter text).filterMap mkSub ++
    (RE.findAll2 QPat.subPatRoman text).filterMap mkSub

/-- Build one case-study record from a `(numeral, text)` match. -/
def mkCase (m : String × String) : Option PQ :=
  let q_text := clean_question_text (PyStr.strip m.snd)
  if is_valid_question q_text then
    some ⟨"Case-" ++ m.fst, q_text, "case-study", [], extract_marks q_text⟩
  else none

/-- `_parse_case_study_questions`: locate case-study spans, then extract
roman-numeral sub-parts within each span. -/
def parse_case_study_questions (text : String) : List PQ :=
  (RE.findAll0 QPat.caseSpanPat text).flatMap fun c =>
    (RE.findAll2 QPat.caseSubPat c).filterMap mkCase

/-- The dedup key of `_remove_duplicates`: lowercase the first 100 characters
of the body and keep only the characters of `[a-zA-Z0-9]`. -/
def dedup_key (q : PQ) : List Char :=
  ((q.question.toList.take 100).map Char.toLower).filter Char.isAlphanum

/-- Loop of `_remove_duplicates` with its running `seen` set. -/
def remove_duplicates_aux (seen : List (List Char)) : List PQ → List PQ
  | [] => []
  | q :: qs =>
    let key := dedup_key q
    if key ∉ seen ∧ 10 < key.length then
      q :: remove_duplicates_aux (key :: seen) qs
    else remove_duplicates_aux seen qs

/-- `_remove_duplicates`. -/
def remove_duplicates (qs : List PQ) : List PQ := remove_duplicates_aux [] qs

/-- `parse_questions`: clean, run the three passes in order (extending a
shared list, i.e. concatenation), deduplicate, truncate to 50. -/
def parse_questions (text : String) : List PQ :=
  let t := clean_text text
  let questions :=
    parse_numbered_questions t ++ parse_sub_questions t ++
      parse_case_study_questions t
  (remove_duplicates questions).take 50

end QuestionParser

/-!  ## JSON values and `json.loads`

`json.loads` output is dynamically typed; `JVal` embeds it.  Numbers keep
their lexeme (the pipeline never computes with them).  The parser below
follows strict JSON: no trailing commas, string keys only, raw control
characters rejected inside strings, and the whole input must be consumed. -/

inductive JVal where
  | null
  | jbool (b : Bool)
  | num (lexeme : String)
  | str (s : String)
  | arr (xs : List JVal)
  | obj (fields : List (String × JVal))

/-- JSON whitespace skipping. -/
def jws (l : List Char) : List Char :=
  l.dropWhile fun c => c = ' ' || c = '\t' || c = '\n' || c = '\r'

/-- One hexadecimal digit. -/
def hexVal (c : Char) : Option Nat :=
  if '0' ≤ c && c ≤ '9' then some (c.toNat - 48)
  else if 'a' ≤ c && c ≤ 'f' then some (c.toNat - 87)
  else if 'A' ≤ c && c ≤ 'F' then some (c.toNat - 55)
  else none

/-- The character decoded by a single-letter JSON escape, if the letter is a
legal escape. -/
def jescChar (e : Char) : Option Char :=
  if e = '"' then some '"'
  else if e = '\\' then some '\\'
  else if e = '/' then some '/'
  else if e = 'b' then some '\x08'
  else if e = 'f' then some '\x0c'
  else if e = 'n' then some '\n'
  else if e = 'r' then some '\r'
  else if e = 't' then some '\t'
  else none

/-- Parse the body of a JSON string (after the opening quote). -/
def jstring : List Char → Option (String × List Char)
  | [] => none
  | c :: rest =>
    if c = '"' then some ("", rest)
    else if c = '\\' then
      match rest with
      | [] => none
      | 'u' :: h1 :: h2 :: h3 :: h4 :: rest3 =>
        match hexVal h1, hexVal h2, hexVal h3, hexVal h4 with
        | some a, some b, some c3, some d =>
          match jstring rest3 with
          | some (s, r2) =>
            some (⟨Char.ofNat (((a * 16 + b) * 16 + c3) * 16 + d) :: s.toList⟩,
              r2)
          | none => none
        | _, _, _, _ => none
      | e :: rest2 =>
        match jescChar e with
        | some ch =>
          match jstring rest2 with
          | some (s, r2) => some (⟨ch :: s.toList⟩, r2)
          | none => none
        | none => none
    else if c.toNat < 32 then none
    else
      match jstring rest with
      | some (s, r2) => some (⟨c :: s.toList⟩, r2)
      | none => none

/-- Parse a JSON number lexeme: `-?(0|[1-9]\d*)(\.\d+)?([eE][+-]?\d+)?`. -/
def jnumber (l : List Char) : Option (String × List Char) :=
  let sign : List Char × List Char :=
    match l with
    | '-' :: r => (['-'], r)
    | _ => ([], l)
  let intPart : Option (List Char × List Char) :=
    match sign.snd with
    | '0' :: r => some (['0'], r)
    | c :: r =>
      if '1' ≤ c && c ≤ '9' then
        some (c :: r.takeWhile PyStr.isDigitP, r.dropWhile PyStr.isDigitP)
      else none
    | [] => none
  match intPart with
  | none => none
  | some (ip, r1) =>
    let fracPart : Option (List Char × List Char) :=
      match r1 with
      | '.' :: r2 =>
        let ds := r2.takeWhile PyStr.isDigitP
        if ds.isEmpty then none
        else some ('.' :: ds, r2.dropWhile PyStr.isDigitP)
      | _ => some ([], r1)
    match fracPart with
    | none => none
    | some (fp, r2) =>
      let expPart : Option (List Char × List Char) :=
        match r2 with
        | c :: r3 =>
          if c = 'e' || c = 'E' then
            let (sgn, r4) :=
              match r3 with
              | s :: r5 => if s = '+' || s = '-' then ([s], r5) else ([], r3)
              | [] => ([], r3)
            let ds := r4.takeWhile PyStr.isDigitP
            if ds.isEmpty then none
            else some (c :: (sgn ++ ds), r4.dropWhile PyStr.isDigitP)
          else some ([], r2)
        | [] => some ([], r2)
      match expPart with
      | none => none
      | some (ep, r3) => some (⟨sign.fst ++ ip ++ fp ++ ep⟩, r3)

mutual

/-- Parse one JSON value (leading whitespace allowed). -/
def jparse : Nat → List Char → Option (JVal × List Char)
  | 0, _ => none
  | f + 1, l =>
    match jws l with
    | [] => none
    | c :: rest =>
      if c = '"' then
        match jstring rest with
        | some (s, r) => some (.str s, r)
        | none => none
      else if c = '\x7b' then
        match jws rest with
        | '\x7d' :: r => some (.obj [], r)
        | r2 => jobjItems f r2
      else if c = '[' then
        match jws rest with
        | ']' :: r => some (.arr [], r)
        | r2 => jarrItems f r2
      else if c = 't' then
        match rest with
        | 'r' :: 'u' :: 'e' :: r => some (.jbool true, r)
        | _ => none
      else if c = 'f' then
        match rest with
        | 'a' :: 'l' :: 's' :: 'e' :: r => some (.jbool false, r)
        | _ => none
      else if c = 'n' then
        match rest with
        | 'u' :: 'l' :: 'l' :: r => some (.null, r)
        | _ => none
      else
        match jnumber (c :: rest) with
        | some (lex, r) => some (.num lex, r)
        | none => none

/-- Parse the members of a non-empty JSON object, starting at the first key. -/
def jobjItems : Nat → List Char → Option (JVal × List Char)
  | 0, _ => none
  | f + 1, l =>
    match jws l with
    | '"' :: rest =>
      match jstring rest with
      | some (k, r) =>
        match jws r with
        | ':' :: r2 =>
          match jparse f r2 with
          | some (v, r3) =>
            match jws r3 with
            | ',' :: r4 =>
              match jobjItems f r4 with
              | some (.obj fs, r5) => some (.obj ((k, v) :: fs), r5)
              | _ => none
            | '\x7d' :: r4 => some (.obj [(k, v)], r4)
            | _ => none
          | none => none
        | _ => none
      | none => none
    | _ => none

/-- Parse the elements of a non-empty JSON array, starting at the first
element. -/
def jarrItems : Nat → List Char → Option (JVal × List Char)
  | 0, _ => none
  | f + 1, l =>
    match jparse f l with
    | some (v, r) =>
      match jws r with
      | ',' :: r2 =>
        match jarrItems f r2 with
        | some (.arr vs, r3) => some (.arr (v :: vs), r3)
        | _ => none
      | ']' :: r2 => some (.arr [v], r2)
      | _ => none
    | none => none

end

/-- Python `json.loads`: parse one value and require only whitespace after
it; `none` models `json.JSONDecodeError`. -/
def json_loads (s : String) : Option JVal :=
  match jparse (s.length + 1) s.toList with
  | some (v, rest) => if jws rest = [] then some v else none
  | none => none

/-- Dict lookup on decoded JSON object fields; duplicate keys were
overwritten left to right by `json.loads`, so the last entry wins. -/
def jget (fields : List (String × JVal)) (k : String) : Option JVal :=
  match fields.reverse.find? fun p => p.fst = k with
  | some p => some p.snd
  | none => none

/-- Python truthiness of a decoded JSON value (`if q.get('final_answer')`
and similar tests).  Exact for the types the pipeline produces; for numbers
it is an approximation on the lexeme, noted here because no claim depends on
numeric truthiness. -/
def jtruthy : JVal → Bool
  | .null => false
  | .jbool b => b
  | .num l => !(l = "0" || l = "-0" || l = "0.0" || l = "-0.0")
  | .str s => s ≠ ""
  | .arr xs => !xs.isEmpty
  | .obj fs => !fs.isEmpty

/-- Python `str()` of a decoded JSON value as interpolated into rendered
text.  Exact for strings, numbers and the literals (the pipeline's normal
values); containers are abstracted to `""`, noted here because no claim
renders a container. -/
def jval_py_str : JVal → String
  | .null => "None"
  | .jbool true => "True"
  | .jbool false => "False"
  | .num l => l
  | .str s => s
  | .arr _ => ""
  | .obj _ => ""

/-- `str(e)` of the `AttributeError` raised by `solution_data.get(...)` when
`json.loads` returned a non-dict; modelled from CPython's message format. -/
def py_attr_msg : JVal → String
  | .null => "'NoneType' object has no attribute 'get'"
  | .jbool _ => "'bool' object has no attribute 'get'"
  | .num l =>
    if PyStr.containsSub "." l || PyStr.containsSub "e" l ||
        PyStr.containsSub "E" l then
      "'float' object has no attribute 'get'"
    else "'int' object has no attribute 'get'"
  | .str _ => "'str' object has no attribute 'get'"
  | .arr _ => "'list' object has no attribute 'get'"
  | .obj _ => ""

/-!  ## Solving orchestrator (`QuestionSolver`) -/

/-- Result dict of `solve_academic_question`
(`{'solution','steps','final_answer','explanation'}`); fields are dynamic
JSON-decoded values. -/
structure SolutionD where
  solution : JVal
  steps : JVal
  final_answer : JVal
  explanation : JVal

/-- Formatted question dict produced by `format_parsed_questions`
(`{'question','original_number','type','marks'}`). -/
structure FQ where
  question : String
  original_number : String
  qtype : String
  marks : Option Nat
deriving DecidableEq, Repr, Inhabited

/-- The rendered options block `"A) ..\nB) .."` appended to an MCQ's
question text by `format_parsed_questions`. -/
def options_block (options : List String) : String :=
  String.intercalate "\n"
    (options.enum.map fun p =>
      (Char.ofNat (65 + p.fst)).toString ++ ") " ++ p.snd)

/-- `format_parsed_questions`: copy the fields, appending the options block
to the question text when options are present. -/
def format_parsed_questions (questions : List PQ) : List FQ :=
  questions.map fun q =>
    { question :=
        if q.options.isEmpty then q.question
        else q.question ++ "\n\nOptions:\n" ++ options_block q.options,
      original_number := q.number,
      qtype := q.qtype,
      marks := q.marks }

namespace QuestionSolver

/-- The prompt f-string of `solve_academic_question`, verbatim (literal
braces written as escapes). -/
def build_prompt (subject : String) (class_level : Nat)
    (question_number question_type : String) (marks : Nat)
    (detail_level question : String) : String :=
  "\n        You are an expert " ++ subject ++
  " teacher helping a Class " ++ toString class_level ++
  " student solve a question from their exam paper.\n        \n        Question Number: " ++
  question_number ++
  "\n        Question Type: " ++ question_type ++
  "\n        Marks: " ++ toString marks ++
  "\n        \n        Question: " ++ question ++
  "\n        \n        Please provide a " ++ detail_level ++
  " solution appropriate for " ++ toString marks ++
  " marks.\n        \n        Guidelines:\n        - For MCQ: Explain why the correct option is right and others are wrong\n        - For 1-2 marks: Give a concise solution with key steps\n        - For 3-5 marks: Provide detailed step-by-step solution with explanations\n        - For mathematical problems: Show all calculations clearly\n        - Use appropriate formulas and theorems\n        - Follow CBSE/Academic answer writing pattern\n        \n        Format your response as JSON:\n        \x7b\n            \"solution\": \"Complete solution text\",\n            \"steps\": [\n                \"Step 1: Understanding the problem...\",\n                \"Step 2: Applying the formula/concept...\",\n                \"Step 3: Calculation/Working...\",\n                ...\n            ],\n            \"final_answer\": \"The final answer with proper units\",\n            \"explanation\": \"Key concept or learning point\"\n        \x7d\n        \n        Make the solution clear and exam-appropriate for Class " ++
  toString class_level ++ ".\n        "

/-- The fence stripping applied to the AI response before `json.loads`. -/
def strip_code_fence (t : String) : String :=
  if PyStr.containsSub "```json" t then
    (PyStr.splitOnStr "```" ((PyStr.splitOnStr "```json" t).getD 1 "")).getD 0 ""
  else if PyStr.containsSub "```" t then
    (PyStr.splitOnStr "```" ((PyStr.splitOnStr "```" t).getD 1 "")).getD 0 ""
  else t

/-- `solve_academic_question`.  The `gemini` parameter stands for the global
`gemini_model` (`none` = not initialized) together with its
`generate_content` behavior; `Except.error e` is a raised exception with
message `e` (caught by the handler at source line 633), `Except.ok ""` a
falsy response or response text.  A decoded non-dict makes Python's
`solution_data.get` raise `AttributeError`, which the same line-633 handler
turns into the `"Error generating solution: ..."` dict. -/
def solve_academic_question (gemini : Option (String → Except String String))
    (question subject : String) (class_level : Nat)
    (question_number question_type : String) (marks : Option Nat) :
    SolutionD :=
  match gemini with
  | none => ⟨.str "AI service is not available.", .arr [], .str "", .str ""⟩
  | some generate_content =>
    let marksV := marks.getD 1
    let detail_level := if 3 ≤ marksV then "detailed" else "concise"
    let prompt :=
      build_prompt subject class_level question_number question_type marksV
        detail_level question
    match generate_content prompt with
    | .error e =>
      ⟨.str ("Error generating solution: " ++ e), .arr [], .str "", .str ""⟩
    | .ok text =>
      if text = "" then
        ⟨.str "Failed to generate solution.", .arr [], .str "", .str ""⟩
      else
        let response_text := strip_code_fence text
        match json_loads response_text with
        | some (.obj fields) =>
          ⟨(jget fields "solution").getD (.str "Solution generated"),
           (jget fields "steps").getD (.arr []),
           (jget fields "final_answer").getD (.str ""),
           (jget fields "explanation").getD (.str "")⟩
        | some v =>
          ⟨.str ("Error generating solution: " ++ py_attr_msg v), .arr [],
           .str "", .str ""⟩
        | none =>
          ⟨.str response_text,
           .arr (((if PyStr.containsSub "\n" response_text then
               PyStr.splitOnStr "\n" response_text
             else [response_text]).map JVal.str)),
           .str "", .str ""⟩

/-- Solved-question dict appended by the success path of
`solve_questions_enhanced` (lines 504-513). -/
structure SolvedQ where
  number : String
  question : String
  qtype : String
  marks : Option Nat
  solution : JVal
  steps : JVal
  final_answer : JVal
  explanation : JVal

/-- The per-candidate body of the loop in `solve_questions_enhanced`:
default absent marks to 1, solve, and build the solved dict. -/
def solve_one (gemini : Option (String → Except String String))
    (subject : String) (class_level : Nat) (q : FQ) : SolvedQ :=
  let marks := q.marks.getD 1
  let solution :=
    solve_academic_question gemini q.question subject class_level
      q.original_number q.qtype (some marks)
  { number := q.original_number,
    question := q.question,
    qtype := q.qtype,
    marks := some marks,
    solution := solution.solution,
    steps := solution.steps,
    final_answer := solution.final_answer,
    explanation := solution.explanation }

/-- The dict appended by the `except` handler of the loop (lines 517-526).
With the embedding's typed records and with `solve_academic_question`
total — it catches every exception of the AI call itself — no expression in
the loop body can raise, so the handler is unreachable here; it is kept as
the reference value the source would append. -/
def solve_exception_record (q : FQ) : SolvedQ :=
  { number := q.original_number,
    question := q.question,
    qtype := q.qtype,
    marks := q.marks,
    solution := .str "Unable to generate solution for this question.",
    steps := .arr [],
    final_answer := .str "",
    explanation := .str "" }

/-- `solve_questions_enhanced`: the sequential per-candidate loop, appending
one solved dict per candidate. -/
def solve_questions_enhanced (gemini : Option (String → Except String String))
    (questions : List FQ) (subject : String) (class_level : Nat) :
    List SolvedQ :=
  questions.map (solve_one gemini subject class_level)

end QuestionSolver

/-!  ## Document renderer (`PDFGenerator`) -/

namespace PDFGenerator

open QuestionSolver

/-- The XML escaping applied to every composed paragraph before it is handed
to the layout library. -/
def py_xml_escape (s : String) : String :=
  PyStr.replaceStr
    (PyStr.replaceStr (PyStr.replaceStr s "&" "&amp;") "<" "&lt;")
    ">" "&gt;"

/-- The metadata block values of `generate_enhanced_pdf` (student, date,
question count, total marks). -/
structure PDFMeta where
  student : String
  date : String
  total_questions : Nat
  total_marks : Nat
deriving DecidableEq, Repr

/-- The rendered artifact, embedded as its composed textual content: title
paragraph, metadata values, and per-question paragraph blocks.  Page layout,
fonts and the byte encoding produced by the layout library are external. -/
structure PDFDoc where
  title : String
  meta : PDFMeta
  blocks : List (List String)

/-- Per-question paragraphs: question line (with a marks annotation when the
marks value is truthy), solution heading, bulleted steps or raw solution
text, optional final-answer line, optional explanation.  A `steps` value
that is neither a list nor a string would raise in Python's `len`
(a fatal render error, §7 of the spec); no pipeline value reaches that. -/
def render_question_block (q : SolvedQ) : List String :=
  let q_marks_text :=
    match q.marks with
    | some m => if m ≠ 0 then " [" ++ toString m ++ " marks]" else ""
    | none => ""
  let question_text :=
    py_xml_escape
      ("<b>Question " ++ q.number ++ q_marks_text ++ ":</b> " ++ q.question)
  let stepsPart : List String :=
    match q.steps with
    | .arr xs =>
      if xs.isEmpty then [py_xml_escape (jval_py_str q.solution)]
      else xs.map fun st => py_xml_escape ("• " ++ jval_py_str st)
    | .str s =>
      if s = "" then [py_xml_escape (jval_py_str q.solution)]
      else s.toList.map fun c => py_xml_escape ("• " ++ c.toString)
    | _ => [py_xml_escape (jval_py_str q.solution)]
  let answerPart : List String :=
    if jtruthy q.final_answer then
      [py_xml_escape ("<b>Final Answer:</b> " ++ jval_py_str q.final_answer)]
    else []
  let explPart : List String :=
    if jtruthy q.explanation then
      ["<b>Explanation:</b>", py_xml_escape (jval_py_str q.explanation)]
    else []
  [question_text, "<b>Solution:</b>"] ++ stepsPart ++ answerPart ++ explPart

/-- `generate_enhanced_pdf`: title, metadata — with
`total_marks = sum(q.get('marks', 0) for q in solved_questions if
q.get('marks') is not None)` — and the per-question blocks.  The generation
date is a parameter (`datetime.now()` is external). -/
def generate_enhanced_pdf (solved_questions : List SolvedQ)
    (student_name subject : String) (class_level : Nat) (date : String) :
    PDFDoc :=
  let total_marks :=
    (((solved_questions.filter fun q => q.marks.isSome).map
      fun q => q.marks.getD 0)).sum
  { title := subject ++ " Solutions - Class " ++ toString class_level,
    meta :=
      { student := student_name,
        date := date,
        total_questions := solved_questions.length,
        total_marks := total_marks },
    blocks := solved_questions.map render_question_block }

end PDFGenerator

/-!  ## Endpoint pipeline (`upload_and_solve`, from extracted text onward)

Upload validation and text extraction are external collaborators; the
embedding starts at the extracted text.  The two invocation flags record
whether the solving orchestrator and the renderer stage were reached. -/

inductive PipeErr where
  | noQuestionsFound
deriving DecidableEq, Repr

/-- Result of one pipeline run: the HTTP-level outcome plus stage-invocation
flags. -/
structure PipeRun where
  result : Except PipeErr PDFGenerator.PDFDoc
  solver_invoked : Bool
  renderer_invoked : Bool

/-- `upload_and_solve` from the parsed questions onward: empty parse ⇒
HTTP 400 `"No questions found..."` (`PipeErr.noQuestionsFound`) before the
solver and renderer stages; otherwise format, solve, render. -/
def upload_and_solve_core (gemini : Option (String → Except String String))
    (extracted_text subject : String) (class_level : Nat)
    (student_name date : String) : PipeRun :=
  let parsed_questions := QuestionParser.parse_questions extracted_text
  if parsed_questions.isEmpty then
    { result := .error .noQuestionsFound,
      solver_invoked := false,
      renderer_invoked := false }
  else
    let questions_to_solve := format_parsed_questions parsed_questions
    let solved_questions :=
      QuestionSolver.solve_questions_enhanced gemini questions_to_solve
        subject class_level
    let pdf :=
      PDFGenerator.generate_enhanced_pdf solved_questions student_name
        subject class_level date
    { result := .ok pdf, solver_invoked := true, renderer_invoked := true }

instance : Inhabited JVal := ⟨JVal.null⟩

instance : Inhabited QuestionSolver.SolvedQ :=
  ⟨⟨"", "", "", none, .null, .null, .null, .null⟩⟩

/-!  ## Helper lemmas about deduplication -/

namespace QuestionParser

theorem mem_rda_imp_keylen (q : PQ) (qs : List PQ) :
    ∀ seen : List (List Char), q ∈ remove_duplicates_aux seen qs →
      10 < (dedup_key q).length := by
  induction qs with
  | nil => intro seen h; simp [remove_duplicates_aux] at h
  | cons a t ih =>
    intro seen h
    simp only [remove_duplicates_aux] at h
    split at h
    · rcases List.mem_cons.mp h with rfl | h2
      · exact (by assumption : dedup_key q ∉ seen ∧ 10 < (dedup_key q).length).2
      · exact ih _ h2
    · exact ih _ h

theorem mem_rda_imp_mem (q : PQ) (qs : List PQ) :
    ∀ seen : List (List Char), q ∈ remove_duplicates_aux seen qs → q ∈ qs := by
  induction qs with
  | nil => intro seen h; simp [remove_duplicates_aux] at h
  | cons a t ih =>
    intro seen h
    simp only [remove_duplicates_aux] at h
    split at h
    · rcases List.mem_cons.mp h with rfl | h2
      · exact List.mem_cons_self _ _
      · exact List.mem_cons_of_mem _ (ih _ h2)
    · exact List.mem_cons_of_mem _ (ih _ h)

theorem dedup_key_length_le (q : PQ) :
    (dedup_key q).length ≤ q.question.length := by
  unfold dedup_key
  calc (((q.question.toList.take 100).map Char.toLower).filter
        Char.isAlphanum).length
      ≤ ((q.question.toList.take 100).map Char.toLower).length :=
        List.length_filter_le _ _
    _ = (q.question.toList.take 100).length := List.length_map _ _
    _ ≤ q.question.toList.length := by simp [List.length_take]
    _ = q.question.length := rfl

theorem mem_rda_iff (qs : List PQ) :
    ∀ (seen : List (List Char)) (q : PQ),
      q ∈ remove_duplicates_aux seen qs ↔
        ∃ i, i < qs.length ∧ qs.getD i default = q ∧
          10 < (dedup_key q).length ∧ dedup_key q ∉ seen ∧
          ∀ j, j < i → dedup_key (qs.getD j default) ≠ dedup_key q := by
  induction qs with
  | nil => intro seen q; simp [remove_duplicates_aux]
  | cons a t ih =>
    intro seen q
    simp only [remove_duplicates_aux]
    split
    case isTrue h =>
      rw [List.mem_cons, ih]
      constructor
      · rintro (rfl | ⟨i, hi, hq, hk, hns, hj⟩)
        · exact ⟨0, by simp, by simp, h.2, h.1, by omega⟩
        · refine ⟨i + 1, by simp; omega, by simpa using hq, hk,
            fun hmem => hns (List.mem_cons_of_mem _ hmem), ?_⟩
          intro j hj2
          match j with
          | 0 =>
            simp only [List.getD_cons_zero]
            intro heq
            exact hns (by rw [← heq]; exact List.mem_cons_self _ _)
          | j + 1 => simpa using hj j (by omega)
      · rintro ⟨i, hi, hq, hk, hns, hj⟩
        match i with
        | 0 => exact Or.inl (by simpa using hq.symm)
        | i + 1 =>
          refine Or.inr ⟨i, by simpa using hi, by simpa using hq, hk, ?_, ?_⟩
          · intro hmem
            rcases List.mem_cons.mp hmem with heq | hmem2
            · exact hj 0 (by omega) (by simpa using heq.symm)
            · exact hns hmem2
          · intro j hj2
            simpa using hj (j + 1) (by omega)
    case isFalse h =>
      rw [ih]
      constructor
      · rintro ⟨i, hi, hq, hk, hns, hj⟩
        refine ⟨i + 1, by simp; omega, by simpa using hq, hk, hns, ?_⟩
        intro j hj2
        match j with
        | 0 =>
          simp only [List.getD_cons_zero]
          intro heq
          exact h ⟨by rw [heq]; exact hns, by rw [heq]; exact hk⟩
        | j + 1 => simpa using hj j (by omega)
      · rintro ⟨i, hi, hq, hk, hns, hj⟩
        match i with
        | 0 =>
          exfalso
          have hqa : a = q := by simpa using hq
          exact h ⟨by rw [hqa]; exact hns, by rw [hqa]; exact hk⟩
        | i + 1 =>
          exact ⟨i, by simpa using hi, by simpa using hq, hk, hns,
            fun j hj2 => by simpa using hj (j + 1) (by omega)⟩

end QuestionParser

/-!  ## Claim C4 — deduplication rule -/

/-- Claim C4, counterexample: a candidate whose dedup key has length exactly
10 and was never seen before is nevertheless dropped — `_remove_duplicates`
keeps a candidate only when `len(q_key) > 10`, so the claim's "kept when the
key has length exactly 10" is false. -/
theorem dedup_len10_dropped_cex :
    QuestionParser.remove_duplicates
        [⟨"1", "abcdefghij", "descriptive", [], none⟩] = [] ∧
      (QuestionParser.dedup_key
        ⟨"1", "abcdefghij", "descriptive", [], none⟩).length = 10 := by
  exact ⟨by decide, by decide⟩

/-- Claim C4, amended: a candidate survives deduplication iff its key — the
lowercased, non-alphanumeric-stripped first 100 characters of its body — has
length strictly greater than 10 (not `≥ 10`) and no earlier candidate in
pass order has the same key; equivalently, a candidate is dropped iff its
key was already seen earlier or has length at most 10. -/
theorem remove_duplicates_mem_iff (qs : List PQ) (q : PQ) :
    q ∈ QuestionParser.remove_duplicates qs ↔
      ∃ i, i < qs.length ∧ qs.getD i default = q ∧
        10 < (QuestionParser.dedup_key q).length ∧
        ∀ j, j < i →
          QuestionParser.dedup_key (qs.getD j default) ≠
            QuestionParser.dedup_key q := by
  rw [QuestionParser.remove_duplicates, QuestionParser.mem_rda_iff]
  simp

/-- Witness for `remove_duplicates_mem_iff` at a concrete two-candidate
list. -/
theorem remove_duplicates_mem_iff_witness :
    (⟨"2", "why is the sky blue", "descriptive", [], none⟩ : PQ) ∈
      QuestionParser.remove_duplicates
        [⟨"1", "find the value of x now", "descriptive", [], none⟩,
         ⟨"2", "why is the sky blue", "descriptive", [], none⟩] :=
  (remove_duplicates_mem_iff _ _).mpr
    ⟨1, by decide, by decide, by decide, by decide⟩

/-!  ## Claim C5 — validity floor on the final candidate list -/

/-- Claim C5: every candidate in the output of `parse_questions` (for MCQ
candidates the body is the stem) has a body of at least 10 characters; this
holds because deduplication keeps only keys longer than 10 characters and a
key is never longer than the body it was computed from. -/
theorem candidate_body_length_floor (text : String) (q : PQ)
    (h : q ∈ QuestionParser.parse_questions text) : 10 ≤ q.question.length := by
  simp only [QuestionParser.parse_questions] at h
  have h1 := List.mem_of_mem_take h
  rw [QuestionParser.remove_duplicates] at h1
  have h2 := QuestionParser.mem_rda_imp_keylen q _ [] h1
  have h3 := QuestionParser.dedup_key_length_le q
  omega


/-- Witness for `candidate_body_length_floor` on a concrete upload text. -/
theorem candidate_body_length_floor_witness :
    (⟨"1", "Find the value of x.", "descriptive", [], none⟩ : PQ) ∈
        QuestionParser.parse_questions "1. Find the value of x." ∧
      10 ≤ ("Find the value of x." : String).length :=
  ⟨by decide,
   candidate_body_length_floor "1. Find the value of x."
     ⟨"1", "Find the value of x.", "descriptive", [], none⟩ (by decide)⟩

/-!  ## Claim C6 — MCQ floor -/

namespace QuestionParser

theorem extract_mcq_options_ge_two (t : String) (d : MCQData)
    (h : extract_mcq_options t = some d) : 2 ≤ d.options.length := by
  simp only [extract_mcq_options] at h
  split at h
  · exact absurd h (by simp)
  · split at h
    · rw [Option.some.injEq] at h
      rw [← h]
      assumption
    · exact absurd h (by simp)

theorem mkNumbered_options (m : String × String) (q : PQ)
    (h : mkNumbered m = some q) :
    q.options = [] ∨ 2 ≤ q.options.length := by
  simp only [mkNumbered] at h
  split at h
  · split at h
    · rw [Option.some.injEq] at h
      rw [← h]
      exact Or.inr (extract_mcq_options_ge_two _ _ (by assumption))
    · rw [Option.some.injEq] at h
      rw [← h]
      exact Or.inl rfl
  · exact absurd h (by simp)

theorem mkSub_options (m : String × String) (q : PQ)
    (h : mkSub m = some q) : q.options = [] := by
  simp only [mkSub] at h
  split at h
  · rw [Option.some.injEq] at h
    rw [← h]
  · exact absurd h (by simp)

theorem mkCase_options (m : String × String) (q : PQ)
    (h : mkCase m = some q) : q.options = [] := by
  simp only [mkCase] at h
  split at h
  · rw [Option.some.injEq] at h
    rw [← h]
  · exact absurd h (by simp)

end QuestionParser

/-- Claim C6: every candidate produced by `parse_questions` has an options
list that is empty or of length at least 2 (never exactly 1): MCQ
classification happens only when `_extract_mcq_options` extracted at least
two options, every other candidate carries an empty options list. -/
theorem options_empty_or_ge_two (text : String) (q : PQ)
    (h : q ∈ QuestionParser.parse_questions text) :
    q.options = [] ∨ 2 ≤ q.options.length := by
  simp only [QuestionParser.parse_questions] at h
  have h1 := List.mem_of_mem_take h
  rw [QuestionParser.remove_duplicates] at h1
  have h2 := QuestionParser.mem_rda_imp_mem q _ [] h1
  rcases List.mem_append.mp h2 with h3 | h3
  · rcases List.mem_append.mp h3 with h4 | h4
    · rcases List.mem_append.mp h4 with h5 | h5 <;>
        · rcases List.mem_filterMap.mp h5 with ⟨m, _, hmk⟩
          exact QuestionParser.mkNumbered_options m q hmk
    · rcases List.mem_append.mp h4 with h5 | h5 <;>
        · rcases List.mem_filterMap.mp h5 with ⟨m, _, hmk⟩
          exact Or.inl (QuestionParser.mkSub_options m q hmk)
  · rcases List.mem_flatMap.mp h3 with ⟨c, _, h4⟩
    rcases List.mem_filterMap.mp h4 with ⟨m, _, hmk⟩
    exact Or.inl (QuestionParser.mkCase_options m q hmk)

/-- Witness for `options_empty_or_ge_two` on a concrete MCQ upload text. -/
theorem options_empty_or_ge_two_witness :
    (⟨"1", "Which is even?", "MCQ", ["Seven", "Four"], none⟩ : PQ) ∈
        QuestionParser.parse_questions "1. Which is even? A) Seven B) Four" ∧
      ((["Seven", "Four"] : List String) = [] ∨
        2 ≤ (["Seven", "Four"] : List String).length) :=
  ⟨by decide,
   options_empty_or_ge_two "1. Which is even? A) Seven B) Four"
     ⟨"1", "Which is even?", "MCQ", ["Seven", "Four"], none⟩ (by decide)⟩

/-!  ## Claim C7 — marks capture -/

/-- Claim C7 (code bug): `_parse_numbered_questions` calls `_extract_marks`
on the already-cleaned text, after `_clean_question_text` has removed every
bracketed annotation and trailing `"n marks"` suffix, so a match whose raw
text ends in `"[3 marks]"` yields a candidate with `marks = None`; the same
`_extract_marks` applied to the raw match text would capture 3, and its
bracketed pattern alternatives can never match after cleaning. -/
theorem marks_extracted_after_cleaning_bug :
    QuestionParser.parse_questions "1. Find the value of x. [3 marks]" =
        [⟨"1", "Find the value of x.", "descriptive", [], none⟩] ∧
      QuestionParser.extract_marks "Find the value of x. [3 marks]" = some 3 :=
  ⟨by decide, by decide⟩

/-!  ## Claim C9 — validity signals -/

/-- The question-verb/interrogative tokens exactly as the claim lists
them. -/
def spec_signal_tokens : List String :=
  ["find", "calculate", "prove", "solve", "explain", "define", "derive",
   "show that", "evaluate", "determine", "state", "write", "what", "which",
   "how", "why", "when"]

/-- The three acceptance signals exactly as the claim states them: a literal
`?`, a question-verb/interrogative token, or an arithmetic/algebraic symbol
from `+-*/=^` combined with length > 15. -/
def spec_signals (text : String) : Bool :=
  text.toList.contains '?' ||
    spec_signal_tokens.any
      (fun t => QuestionParser.wordSearch t ⟨text.toList.map Char.toLower⟩) ||
    (text.toList.any
        (fun c =>
          c = '+' || c = '-' || c = '*' || c = '/' || c = '=' || c = '^') &&
      decide (15 < text.length))

/-- Claim C9, counterexample: `"abcdefgh 123456789"` is accepted by
`_is_valid_question` — its digits satisfy the `[\d\+\-\*\/\=\^]+` check —
although none of the claim's three signals holds (no `?`, no token, and no
symbol from `+-*/=^`). -/
theorem validity_extra_signals_cex :
    QuestionParser.is_valid_question "abcdefgh 123456789" = true ∧
      spec_signals "abcdefgh 123456789" = false :=
  ⟨by decide, by decide⟩

theorem any_mathChar_split (l : List Char) :
    l.any QuestionParser.mathChar =
      (l.any PyStr.isDigitP ||
        l.any fun c =>
          c = '+' || c = '-' || c = '*' || c = '/' || c = '=' || c = '^') := by
  induction l with
  | nil => rfl
  | cons c t ih =>
    simp only [List.any_cons, ih, QuestionParser.mathChar]
    cases PyStr.isDigitP c <;> cases t.any PyStr.isDigitP <;>
      simp [Bool.or_assoc, Bool.or_comm, Bool.or_left_comm]

theorem indicators_any_split (text lower : String) :
    (QuestionParser.question_indicators.any
        (QuestionParser.indicator_hit text lower) = true) ↔
      (text.toList.contains '?' = true ∨
        (spec_signal_tokens.any fun t => QuestionParser.wordSearch t lower) =
          true ∨
        QuestionParser.wordPairSearch "if" "then" lower = true ∨
        QuestionParser.wordPairSearch "given" "find" lower = true) := by
  simp only [QuestionParser.question_indicators, spec_signal_tokens,
    QuestionParser.indicator_hit, List.any_cons, List.any_nil,
    Bool.or_eq_true, Bool.or_false]
  tauto

/-- Claim C9, amended: a body is accepted by `_is_valid_question` iff it has
length at least 10, matches no header/instruction prefix, and satisfies at
least one of: the claim's three signals; a digit combined with length > 15
(the code's symbol class also contains `\d`); or the extra indicator
patterns `if ... then` and `given ... find` that the claim's token list
omits. -/
theorem is_valid_question_characterization (text : String) :
    QuestionParser.is_valid_question text = true ↔
      10 ≤ text.length ∧
        (QuestionParser.skip_checks.any fun f => f text) = false ∧
        (spec_signals text = true ∨
          (text.toList.any PyStr.isDigitP = true ∧ 15 < text.length) ∨
          QuestionParser.wordPairSearch "if" "then"
              ⟨text.toList.map Char.toLower⟩ = true ∨
          QuestionParser.wordPairSearch "given" "find"
              ⟨text.toList.map Char.toLower⟩ = true) := by
  unfold QuestionParser.is_valid_question spec_signals
  by_cases h1 : text.length < 10
  · simp only [if_pos h1]
    constructor
    · intro h; exact absurd h (by simp)
    · intro h; omega
  · rw [if_neg h1]
    have h1b : 10 ≤ text.length := Nat.not_lt.mp h1
    by_cases h2 : (QuestionParser.skip_checks.any fun f => f text) = true
    · rw [if_pos h2]
      simp [h2]
    · have h2b : (QuestionParser.skip_checks.any fun f => f text) = false :=
        Bool.not_eq_true _ ▸ eq_false_of_ne_true h2
      rw [if_neg h2]
      simp only [h1b, h2b, true_and]
      rw [any_mathChar_split]
      by_cases hA :
          QuestionParser.question_indicators.any
            (QuestionParser.indicator_hit text
              ⟨text.toList.map Char.toLower⟩) = true
      · rw [if_pos hA]
        rcases (indicators_any_split text _).mp hA with hq | ht | hit | hgf
        · simp only [Bool.or_eq_true, Bool.and_eq_true, decide_eq_true_eq]
          tauto
        · simp only [Bool.or_eq_true, Bool.and_eq_true, decide_eq_true_eq]
          tauto
        · simp only [Bool.or_eq_true, Bool.and_eq_true, decide_eq_true_eq]
          tauto
        · simp only [Bool.or_eq_true, Bool.and_eq_true, decide_eq_true_eq]
          tauto
      · rw [if_neg hA]
        have hA2 := fun h => hA ((indicators_any_split text _).mpr h)
        push_neg at hA2
        by_cases hB :
            ((text.toList.any PyStr.isDigitP ||
                text.toList.any fun c =>
                  c = '+' || c = '-' || c = '*' || c = '/' || c = '=' ||
                    c = '^') &&
              decide (15 < text.length)) = true
        · rw [if_pos hB]
          simp only [Bool.and_eq_true, Bool.or_eq_true, decide_eq_true_eq]
            at hB
          simp only [true_iff, Bool.or_eq_true, Bool.and_eq_true,
            decide_eq_true_eq]
          tauto
        · rw [if_neg hB]
          simp only [Bool.and_eq_true, Bool.or_eq_true, decide_eq_true_eq,
            not_and, not_or] at hB
          simp only [false_iff, not_or, Bool.or_eq_true, Bool.and_eq_true,
            decide_eq_true_eq, not_and]
          constructor
          · tauto
          · tauto

/-!  ## Claim C10 — no-questions terminality -/

/-- Claim C10: when all three segmentation passes produce zero valid
candidates on the cleaned text, the endpoint rejects the request with the
no-questions-found error and neither the solving orchestrator nor the
renderer stage runs. -/
theorem no_questions_found_terminal
    (gemini : Option (String → Except String String))
    (text subject : String) (cl : Nat) (student date : String)
    (h1 : QuestionParser.parse_numbered_questions
      (QuestionParser.clean_text text) = [])
    (h2 : QuestionParser.parse_sub_questions
      (QuestionParser.clean_text text) = [])
    (h3 : QuestionParser.parse_case_study_questions
      (QuestionParser.clean_text text) = []) :
    (upload_and_solve_core gemini text subject cl student date).result =
        Except.error PipeErr.noQuestionsFound ∧
      (upload_and_solve_core gemini text subject cl student
        date).solver_invoked = false ∧
      (upload_and_solve_core gemini text subject cl student
        date).renderer_invoked = false := by
  have hp : QuestionParser.parse_questions text = [] := by
    show (QuestionParser.remove_duplicates
      (QuestionParser.parse_numbered_questions (QuestionParser.clean_text text) ++
        QuestionParser.parse_sub_questions (QuestionParser.clean_text text) ++
        QuestionParser.parse_case_study_questions
          (QuestionParser.clean_text text))).take 50 = []
    rw [h1, h2, h3]
    rfl
  unfold upload_and_solve_core
  rw [hp]
  exact ⟨rfl, rfl, rfl⟩

/-- Witness for `no_questions_found_terminal` on a concrete text with zero
matches across all three passes. -/
theorem no_questions_found_terminal_witness :
    QuestionParser.parse_numbered_questions
        (QuestionParser.clean_text "hello world") = [] ∧
      (upload_and_solve_core none "hello world" "Mathematics" 10 "S"
        "d").result = Except.error PipeErr.noQuestionsFound ∧
      (upload_and_solve_core none "hello world" "Mathematics" 10 "S"
        "d").solver_invoked = false := by
  have h := no_questions_found_terminal none "hello world" "Mathematics" 10
    "S" "d" (by decide) (by decide) (by decide)
  exact ⟨by decide, h.1, h.2.1⟩

/-!  ## Helper lemmas for the orchestrator claims -/

theorem getD_map_of_lt {α β : Type} [Inhabited α] [Inhabited β] (f : α → β) :
    ∀ (l : List α) (i : Nat), i < l.length →
      (l.map f).getD i default = f (l.getD i default) := by
  intro l
  induction l with
  | nil => intro i hi; simp at hi
  | cons a t ih =>
    intro i hi
    cases i with
    | zero => rfl
    | succ j => simpa using ih j (by simpa using hi)

/-!  ## Claim C2 — resilience of the solving loop -/

/-- Claim C2: for every candidate list and every AI behavior (including any
subset of the calls failing), the orchestrator returns exactly one solved
record per candidate, and the i-th record carries the i-th candidate's
number and question. -/
theorem solve_preserves_count_and_order
    (gemini : Option (String → Except String String))
    (qs : List FQ) (subject : String) (cl : Nat) :
    (QuestionSolver.solve_questions_enhanced gemini qs subject cl).length =
        qs.length ∧
      ∀ i, i < qs.length →
        ((QuestionSolver.solve_questions_enhanced gemini qs subject
              cl).getD i default).number =
            (qs.getD i default).original_number ∧
          ((QuestionSolver.solve_questions_enhanced gemini qs subject
              cl).getD i default).question =
            (qs.getD i default).question := by
  constructor
  · simp [QuestionSolver.solve_questions_enhanced]
  · intro i hi
    have h1 :=
      getD_map_of_lt (QuestionSolver.solve_one gemini subject cl) qs i hi
    rw [QuestionSolver.solve_questions_enhanced, h1]
    exact ⟨rfl, rfl⟩

/-- Witness for `solve_preserves_count_and_order` with both AI calls
failing. -/
theorem solve_preserves_count_and_order_witness :
    (QuestionSolver.solve_questions_enhanced (some fun _ => Except.error "t")
          [⟨"Find x where x+2=9.", "1", "descriptive", none⟩,
           ⟨"Why is the sky blue?", "2", "descriptive", none⟩]
          "Mathematics" 10).length = 2 ∧
      ((QuestionSolver.solve_questions_enhanced
            (some fun _ => Except.error "t")
            [⟨"Find x where x+2=9.", "1", "descriptive", none⟩,
             ⟨"Why is the sky blue?", "2", "descriptive", none⟩]
            "Mathematics" 10).getD 1 default).number = "2" := by
  have h := solve_preserves_count_and_order (some fun _ => Except.error "t")
    [⟨"Find x where x+2=9.", "1", "descriptive", none⟩,
     ⟨"Why is the sky blue?", "2", "descriptive", none⟩] "Mathematics" 10
  exact ⟨h.1.trans rfl, ((h.2 1 (by decide)).1).trans rfl⟩

/-!  ## Claim C3 — per-question failure fallback -/

/-- The prompt `solve_one` sends to the AI capability for a formatted
question: marks defaulted to 1 (at both defaulting sites of the source),
detail level derived from the defaulted marks. -/
def QuestionSolver.prompt_for (subject : String) (cl : Nat) (q : FQ) :
    String :=
  QuestionSolver.build_prompt subject cl q.original_number q.qtype
    (q.marks.getD 1)
    (if 3 ≤ q.marks.getD 1 then "detailed" else "concise") q.question

/-- Claim C3, counterexample: with the AI call raising `"boom"`, the
candidate's record has solution text `"Error generating solution: boom"` —
the handler inside `solve_academic_question` catches the exception first —
and that text differs from the claim's
`"Unable to generate solution for this question."`. -/
theorem ai_failure_text_cex :
    ((QuestionSolver.solve_questions_enhanced
          (some fun _ => Except.error "boom")
          [⟨"Find x where x+2=9.", "1", "descriptive", none⟩]
          "Mathematics" 10).getD 0 default).solution =
        JVal.str "Error generating solution: boom" ∧
      ("Error generating solution: boom" : String) ≠
        "Unable to generate solution for this question." :=
  ⟨rfl, by decide⟩

/-- Claim C3, amended: an exception raised by the AI call for one candidate
is caught by the handler inside `solve_academic_question` and yields a
record with solution text `"Error generating solution: " ++ msg`, empty
steps, final answer and explanation (the outer handler's
`"Unable to generate solution for this question."` record is produced only
if the loop body itself raises outside that call); the failure never
escalates — the batch still returns one record per candidate. -/
theorem ai_failure_inner_handler (ai : String → Except String String)
    (qs : List FQ) (subject : String) (cl : Nat) (i : Nat) (msg : String)
    (hi : i < qs.length)
    (hfail : ai (QuestionSolver.prompt_for subject cl (qs.getD i default)) =
      Except.error msg) :
    (QuestionSolver.solve_questions_enhanced (some ai) qs subject
          cl).length = qs.length ∧
      ((QuestionSolver.solve_questions_enhanced (some ai) qs subject
            cl).getD i default).solution =
          JVal.str ("Error generating solution: " ++ msg) ∧
        ((QuestionSolver.solve_questions_enhanced (some ai) qs subject
            cl).getD i default).steps = JVal.arr [] ∧
        ((QuestionSolver.solve_questions_enhanced (some ai) qs subject
            cl).getD i default).final_answer = JVal.str "" ∧
        ((QuestionSolver.solve_questions_enhanced (some ai) qs subject
            cl).getD i default).explanation = JVal.str "" := by
  refine ⟨by simp [QuestionSolver.solve_questions_enhanced], ?_⟩
  have h1 :=
    getD_map_of_lt (QuestionSolver.solve_one (some ai) subject cl) qs i hi
  rw [QuestionSolver.solve_questions_enhanced, h1]
  unfold QuestionSolver.solve_one QuestionSolver.solve_academic_question
  dsimp only
  unfold QuestionSolver.prompt_for at hfail
  rw [Option.getD_some] at *
  rw [hfail]
  exact ⟨rfl, rfl, rfl, rfl⟩

/-- Witness for `ai_failure_inner_handler` with a concrete failing call. -/
theorem ai_failure_inner_handler_witness :
    (0 < 1 ∧
      ((QuestionSolver.solve_questions_enhanced
            (some fun _ => Except.error "boom2")
            [⟨"Why is the sky blue?", "1", "descriptive", none⟩]
            "Physics" 9).getD 0 default).steps = JVal.arr []) := by
  have h := ai_failure_inner_handler (fun _ => Except.error "boom2")
    [⟨"Why is the sky blue?", "1", "descriptive", none⟩] "Physics" 9 0
    "boom2" (by decide) rfl
  exact ⟨by decide, h.2.2.1⟩

/-!  ## Claim C1 — marks divergence -/

theorem solved_total_marks
    (gemini : Option (String → Except String String))
    (subject : String) (cl : Nat) :
    ∀ qs : List FQ,
      (((qs.map (QuestionSolver.solve_one gemini subject cl)).filter
            fun q => q.marks.isSome).map
          fun q => q.marks.getD 0).sum =
        (qs.map fun q => q.marks.getD 1).sum := by
  intro qs
  induction qs with
  | nil => rfl
  | cons a t ih =>
    simp only [List.map_cons, List.sum_cons, ← ih]
    rw [List.filter_cons_of_pos (by rfl)]
    simp only [List.map_cons, List.sum_cons]
    rfl

/-- Claim C1, counterexample: one candidate parsed with absent marks and
solved on the success path yields a rendered artifact whose metadata
`total_marks` is 1, not 0 — the solved record stores the solve-time
defaulted marks and the renderer sums the solved records' marks. -/
theorem total_marks_counts_defaulted_cex :
    (PDFGenerator.generate_enhanced_pdf
          (QuestionSolver.solve_questions_enhanced
            (some fun _ => Except.ok "ok")
            (format_parsed_questions
              [⟨"1", "Find the value of x.", "descriptive", [], none⟩])
            "Mathematics" 10)
          "S" "Mathematics" 10 "d").meta.total_marks = 1 ∧
      (1 : Nat) ≠ 0 :=
  ⟨rfl, by decide⟩

/-- Claim C1, amended: the effective marks used for solving (and stored in
the solved record) is `marks or 1`, and the rendered artifact's
`total_marks` sums the solved records' marks, so it equals the sum over all
candidates of `marks or 1`: a candidate with absent marks contributes 1
through the renderer, not 0 (only the HTTP response's `parsing_details`
total, computed from the parse-time records, excludes absent marks). -/
theorem total_marks_amended
    (gemini : Option (String → Except String String))
    (parsed : List PQ) (subject : String) (cl : Nat)
    (student date : String) :
    (PDFGenerator.generate_enhanced_pdf
          (QuestionSolver.solve_questions_enhanced gemini
            (format_parsed_questions parsed) subject cl)
          student subject cl date).meta.total_marks =
        (parsed.map fun q => q.marks.getD 1).sum ∧
      ∀ i, i < parsed.length →
        ((QuestionSolver.solve_questions_enhanced gemini
              (format_parsed_questions parsed) subject cl).getD i
            default).marks =
          some ((parsed.getD i default).marks.getD 1) := by
  constructor
  · show (((QuestionSolver.solve_questions_enhanced gemini
        (format_parsed_questions parsed) subject cl).filter
          fun q => q.marks.isSome).map fun q => q.marks.getD 0).sum = _
    rw [QuestionSolver.solve_questions_enhanced,
      solved_total_marks gemini subject cl (format_parsed_questions parsed),
      format_parsed_questions, List.map_map]
    rfl
  · intro i hi
    have hlen : i < (format_parsed_questions parsed).length := by
      simpa [format_parsed_questions] using hi
    have h1 := getD_map_of_lt (QuestionSolver.solve_one gemini subject cl)
      (format_parsed_questions parsed) i hlen
    rw [QuestionSolver.solve_questions_enhanced, h1,
      format_parsed_questions]
    rw [getD_map_of_lt _ parsed i hi]
    rfl

/-- Witness for `total_marks_amended` on a one-candidate list with absent
marks. -/
theorem total_marks_amended_witness :
    (PDFGenerator.generate_enhanced_pdf
          (QuestionSolver.solve_questions_enhanced none
            (format_parsed_questions
              [⟨"1", "Why is the sky blue?", "descriptive", [], none⟩])
            "Physics" 9)
          "S" "Physics" 9 "d").meta.total_marks = 1 ∧
      ((QuestionSolver.solve_questions_enhanced none
            (format_parsed_questions
              [⟨"1", "Why is the sky blue?", "descriptive", [], none⟩])
            "Physics" 9).getD 0 default).marks = some 1 := by
  have h := total_marks_amended none
    [⟨"1", "Why is the sky blue?", "descriptive", [], none⟩] "Physics" 9
    "S" "d"
  exact ⟨h.1.trans rfl, (h.2 0 (by decide)).trans rfl⟩

/-!  ## Claim C8 — unparseable AI response fallback -/

/-- Number of entries of a decoded steps list (0 for a non-list). -/
def steps_len : JVal → Nat
  | .arr xs => xs.length
  | _ => 0

/-- Claim C8, counterexample: a plain-prose AI response containing exactly
two newline characters yields a steps list with 3 entries, not 2 —
splitting on n separators produces n+1 pieces. -/
theorem prose_two_newlines_cex :
    (("Take LHS\nSimplify\nDone" : String).toList.filter
        fun c => c = '\n').length = 2 ∧
      steps_len
        (QuestionSolver.solve_academic_question
            (some fun _ => Except.ok "Take LHS\nSimplify\nDone")
            "q" "Mathematics" 10 "1" "descriptive" (some 1)).steps = 3 ∧
      (3 : Nat) ≠ 2 :=
  ⟨by decide, rfl, by decide⟩

/-- Claim C8, amended: when strict JSON decoding fails on the
fence-stripped response, the synthesized record is: solution = the stripped
text, steps = its newline split (a single-element list when no newline is
present), empty final answer and explanation.  Splitting on n newlines
yields n+1 pieces, so a plain-prose response with exactly two newline
characters yields a steps list with exactly 3 entries. -/
theorem json_decode_failure_fallback (resp question subject : String)
    (cl : Nat) (num qtype : String) (marks : Option Nat)
    (hne : resp ≠ "")
    (hfail : json_loads (QuestionSolver.strip_code_fence resp) = none) :
    QuestionSolver.solve_academic_question (some fun _ => Except.ok resp)
        question subject cl num qtype marks =
      ⟨JVal.str (QuestionSolver.strip_code_fence resp),
       JVal.arr
         (((if PyStr.containsSub "\n" (QuestionSolver.strip_code_fence resp)
             then PyStr.splitOnStr "\n" (QuestionSolver.strip_code_fence resp)
             else [QuestionSolver.strip_code_fence resp]).map JVal.str)),
       JVal.str "", JVal.str ""⟩ := by
  unfold QuestionSolver.solve_academic_question
  dsimp only
  rw [if_neg hne, hfail]

/-- Witness for `json_decode_failure_fallback` at a concrete prose
response. -/
theorem json_decode_failure_fallback_witness :
    ("Expand the square\nCollect terms\nDone" : String) ≠ "" ∧
      json_loads
          (QuestionSolver.strip_code_fence
            "Expand the square\nCollect terms\nDone") = none ∧
      steps_len
        (QuestionSolver.solve_academic_question
            (some fun _ => Except.ok "Expand the square\nCollect terms\nDone")
            "q" "Mathematics" 10 "1" "descriptive" none).steps = 3 := by
  have h := json_decode_failure_fallback
    "Expand the square\nCollect terms\nDone" "q" "Mathematics" 10 "1"
    "descriptive" none (by decide) rfl
  exact ⟨by decide, rfl, by rw [h]; rfl⟩
